import Mathlib

/-!
# Verification of the enterprise-invoice-agent core

A shallow embedding, in Lean 4, of the invoice-reconciliation workflow of
`enterprise-invoice-agent`: the PII redaction filter (`security.py`), the
retry/fallback wrapper and reconciliation step (`worker.py`), the mocked
external tools (`tools.py`), and the three-node LangGraph workflow
(`graph.py`).  Python `Decimal`/`float` amounts are modelled as rationals,
Python exceptions as `Except String` / `Option String` (carrying `str(e)`),
and the random/stateful behaviour of the mocked ERP fetch as an explicit
attempt-indexed outcome function.
-/

set_option maxRecDepth 4000

namespace InvoiceAgent

/-! ## `config.py` -/

/-- `config.py`: `HITL_APPROVAL_THRESHOLD_USD` — default `float("5000")`. -/
def HITL_APPROVAL_THRESHOLD_USD : ℚ := 5000

/-- `config.py`: `MAX_TOOL_RETRIES` — default `int("3")`. -/
def MAX_TOOL_RETRIES : Int := 3

/-- `config.py`: `PII_KEYS` — the fixed PII key set redacted from logs and
API responses. -/
def PII_KEYS : List String := ["vendor_tax_id", "bank_account", "vendor_email", "buyer_email"]

/-! ## `security.py` — PII redaction

Python values as seen by `redact_pii`: dictionaries (string-keyed, the only
key type occurring in this codebase's state payloads), lists, tuples (a
container `redact_pii` does **not** traverse, since it is neither `dict` nor
`list`), and atoms (any other scalar value — strings, numbers, `None`, … —
abstracted as a tagged string). -/

mutual

inductive PyVal : Type where
  | atom (s : String) : PyVal
  | dict (fields : PyFields) : PyVal
  | list (items : PyItems) : PyVal
  | tuple (items : PyItems) : PyVal

inductive PyFields : Type where
  | nil : PyFields
  | cons (k : String) (v : PyVal) (rest : PyFields) : PyFields

inductive PyItems : Type where
  | nil : PyItems
  | cons (v : PyVal) (rest : PyItems) : PyItems

end

/-- `security.py`: `REDACT_PLACEHOLDER = "[REDACTED]"`. -/
def REDACT_PLACEHOLDER : String := "[REDACTED]"

mutual

/-- `security.py`: `redact_pii` — recursively redact known PII keys from
dicts/lists.  A dict entry whose key is in `PII_KEYS` has its whole value
replaced by the placeholder string; other dict values and list items are
redacted recursively; anything that is neither a `dict` nor a `list`
(atoms, tuples) is returned unchanged. -/
def redact_pii : PyVal → PyVal
  | .atom s => .atom s
  | .dict fields => .dict (redactFields fields)
  | .list items => .list (redactItems items)
  | .tuple items => .tuple items

/-- The dict comprehension inside `redact_pii`:
`{k: REDACT_PLACEHOLDER if k in PII_KEYS else redact_pii(v) for k, v in obj.items()}`. -/
def redactFields : PyFields → PyFields
  | .nil => .nil
  | .cons k v rest =>
      .cons k (if k ∈ PII_KEYS then .atom REDACT_PLACEHOLDER else redact_pii v)
        (redactFields rest)

/-- The list comprehension inside `redact_pii`: `[redact_pii(item) for item in obj]`. -/
def redactItems : PyItems → PyItems
  | .nil => .nil
  | .cons v rest => .cons (redact_pii v) (redactItems rest)

end

/-- Keys of a dict, in order. -/
def PyFields.keys : PyFields → List String
  | .nil => []
  | .cons k _ rest => k :: rest.keys

/-- Length of a list value. -/
def PyItems.length : PyItems → Nat
  | .nil => 0
  | .cons _ rest => rest.length + 1

mutual

/-- A value built only from atoms, dicts and lists (no tuples at any depth):
the "JSON-like" payloads the redaction contract is about. -/
def tupleFree : PyVal → Bool
  | .atom _ => true
  | .dict fields => tupleFreeFields fields
  | .list items => tupleFreeItems items
  | .tuple _ => false

def tupleFreeFields : PyFields → Bool
  | .nil => true
  | .cons _ v rest => tupleFree v && tupleFreeFields rest

def tupleFreeItems : PyItems → Bool
  | .nil => true
  | .cons v rest => tupleFree v && tupleFreeItems rest

end

mutual

/-- At every depth reachable through dicts and lists, every dict entry whose
key is in `PII_KEYS` holds exactly the placeholder atom — i.e. no value
originally stored under a PII key survives at any PII-keyed position. -/
def piiClean : PyVal → Bool
  | .atom _ => true
  | .dict fields => piiCleanFields fields
  | .list items => piiCleanItems items
  | .tuple items => piiCleanItems items

def piiCleanFields : PyFields → Bool
  | .nil => true
  | .cons k v rest =>
      (if k ∈ PII_KEYS then
         (match v with | .atom s => s == REDACT_PLACEHOLDER | _ => false)
       else piiClean v) &&
        piiCleanFields rest

def piiCleanItems : PyItems → Bool
  | .nil => true
  | .cons v rest => piiClean v && piiCleanItems rest

end

/-! ## `models.py` — value records

`Decimal` and `float` amounts are modelled as `ℚ` (every amount in the
program is an exact decimal literal, and `float(amount)` on the demo values
is value-preserving).  `line_items`/`due_date` fields are carried for
completeness of the record shape. -/

structure Invoice where
  invoice_id : String
  vendor_id : String
  vendor_name : String := ""
  amount : ℚ
  currency : String := "USD"
  due_date : Option String := none
  status : String := "pending"
deriving Repr, DecidableEq

structure PurchaseOrder where
  po_id : String
  vendor_id : String := ""
  total_amount : ℚ
  status : String := "open"
deriving Repr, DecidableEq

structure ReconciliationResult where
  invoice_id : String := ""
  po_id : String := ""
  match_score : ℚ
  amount_match : Bool := false
  message : String := ""
deriving Repr, DecidableEq

/-! ## `tools.py` — mocked external-system calls

`_mock_invoices` raises a simulated `TimeoutError` with probability 0.15
before returning its fixed data; that nondeterminism is modelled by
parameterising callers over an attempt-indexed outcome function.  The
deterministic data path is embedded below. -/

/-- The fixed invoice data inside `tools.py:_mock_invoices`. -/
def mockInvoiceData : List Invoice :=
  [ { invoice_id := "INV-001", vendor_id := "V001", vendor_name := "Acme Corp",
      amount := 10000, currency := "USD", status := "pending" },
    { invoice_id := "INV-002", vendor_id := "V001", vendor_name := "Acme Corp",
      amount := 500, currency := "USD", status := "pending" },
    { invoice_id := "INV-003", vendor_id := "V002", vendor_name := "Beta Inc",
      amount := 2500, currency := "USD", status := "pending" } ]

/-- `tools.py:_mock_invoices` on the non-timeout path: vendor filter
(applied only when `vendor_id` is truthy, i.e. a non-empty string) then
`items[:limit]`. -/
def mock_invoices (vendor_id : Option String) (limit : Nat) : List Invoice :=
  let items := mockInvoiceData
  let items := match vendor_id with
    | some vid => if vid = "" then items else items.filter (fun i => i.vendor_id = vid)
    | none => items
  items.take limit

/-- `tools.py:_mock_pos`: the fixed purchase-order data. -/
def mock_pos : List PurchaseOrder :=
  [ { po_id := "PO-101", vendor_id := "V001", total_amount := 10000, status := "open" },
    { po_id := "PO-102", vendor_id := "V001", total_amount := 500, status := "open" },
    { po_id := "PO-201", vendor_id := "V002", total_amount := 2500, status := "open" } ]

/-- `tools.py:fetch_pending_invoices` on the non-timeout path (the tool
returns the invoices as dicts via `model_dump`; the records themselves model
those dicts). -/
def fetch_pending_invoices (vendor_id : Option String) (limit : Nat) : List Invoice :=
  mock_invoices vendor_id limit

/-- `tools.py:match_invoice_to_po`, parameterised by the invoice and PO
lists it searches (in the source these are `_mock_invoices(limit=100)` and
`_mock_pos()` on the non-timeout path).  `next((i for i in invoices if
i.invoice_id == args.invoice_id), None)` is `List.find?`. -/
def match_invoice_to_po (invoices : List Invoice) (pos : List PurchaseOrder)
    (invoice_id po_id : String) : ReconciliationResult :=
  let inv? := invoices.find? (fun i => i.invoice_id = invoice_id)
  let po? := pos.find? (fun p => p.po_id = po_id)
  match inv?, po? with
  | some inv, some po =>
      let amount_match := |inv.amount - po.total_amount| < 1/100
      let score : ℚ := if inv.vendor_id = po.vendor_id ∧ amount_match then 1 else 1/2
      { invoice_id := invoice_id, po_id := po_id, match_score := score,
        amount_match := amount_match,
        message := if score ≥ 1/2 then "Match found" else "No match" }
  | _, _ =>
      { invoice_id := invoice_id, po_id := po_id, match_score := 0,
        amount_match := false, message := "Invoice or PO not found" }

/-- `tools.py:match_invoice_to_po` applied to the mock data (its non-timeout
behaviour in the source). -/
def match_invoice_to_po_mock (invoice_id po_id : String) : ReconciliationResult :=
  match_invoice_to_po (mock_invoices none 100) mock_pos invoice_id po_id

/-- Result dict of `tools.py:execute_payment` (`Option` fields model keys
present only on one branch; the `Decimal` string `amount_usd` is kept as its
numeric value). -/
structure PaymentResult where
  status : String
  invoice_id : String
  reason : Option String := none
  amount_usd : Option ℚ := none
  vendor_id : Option String := none
  reference : Option String := none
deriving Repr, DecidableEq

/-- `tools.py:execute_payment` — pays only if approved; `rand` stands for
`random.randint(1000, 9999)` in the payment reference. -/
def execute_payment (invoice_id : String) (amount_usd : ℚ) (vendor_id : String)
    (approved : Bool) (rand : Nat) : PaymentResult :=
  if !approved then
    { status := "cancelled", invoice_id := invoice_id,
      reason := some "User did not approve" }
  else
    { status := "paid", invoice_id := invoice_id, amount_usd := some amount_usd,
      vendor_id := some vendor_id,
      reference := some ("PAY-" ++ invoice_id ++ "-" ++ toString rand) }

/-- `tools.py:get_payment_details` — payment summary for the HITL prompt. -/
structure PaymentDetails where
  invoice_id : String
  amount_usd : ℚ
  currency : String
  requires_approval : Bool
  approval_threshold_usd : ℚ
deriving Repr, DecidableEq

def get_payment_details (invoice_id : String) (amount_usd : ℚ) : PaymentDetails :=
  { invoice_id := invoice_id, amount_usd := amount_usd, currency := "USD",
    requires_approval := amount_usd ≥ HITL_APPROVAL_THRESHOLD_USD,
    approval_threshold_usd := HITL_APPROVAL_THRESHOLD_USD }

/-! ## `worker.py` — retry/fallback wrapper and reconciliation step

A fallible Python callable is modelled as `fn : Nat → Except String α`: the
outcome of its `attempt`-th invocation (0-based), `.error e` standing for a
raised exception with `str(e) = e`.  This captures the mocked tools' random
timeouts as an explicit oracle. -/

/-- The `for attempt in range(max_retries)` loop body of
`run_with_retry_and_fallback`.  `fuel` is the number of loop iterations
still available (`max_retries - attempt`); `lastError` is the running
`last_error` variable (entering as `None`). -/
def retryLoop (fn : Nat → Except String α) (fallback : α) (maxRetries : Nat) :
    Nat → Nat → Option String → α × Option String × Bool
  | 0, _, lastError => (fallback, lastError, true)
  | fuel + 1, attempt, _ =>
      match fn attempt with
      | .ok r => (r, none, false)
      | .error e =>
          if attempt = maxRetries - 1 then (fallback, some e, true)
          else retryLoop fn fallback maxRetries fuel (attempt + 1) (some e)

/-- `worker.py:run_with_retry_and_fallback` — retry on failure, then return
the fallback when all retries fail; returns `(result, error, used_fallback)`.
`max_retries` is an `Int` because Python's `range` accepts (and skips) a
non-positive bound. -/
def run_with_retry_and_fallback (fn : Nat → Except String α) (fallback : α)
    (max_retries : Int := MAX_TOOL_RETRIES) : α × Option String × Bool :=
  retryLoop fn fallback max_retries.toNat max_retries.toNat 0 none

/-- One reconciled item: the dict
`{"invoice": inv, "match": match.model_dump()}` or
`{"invoice": inv, "match": None, "error": str(e)}`. -/
structure ReconItem where
  invoice : Invoice
  matchResult : Option ReconciliationResult
  error : Option String := none
deriving Repr, DecidableEq

/-- The fixed vendor→PO lookup in `worker.py:reconcile_step`:
`"PO-101" if vid == "V001" else ("PO-201" if vid == "V002" else "PO-101")`,
where `vid = inv.get("vendor_id") or ""`. -/
def poForVendor (vid : String) : String :=
  if vid = "V001" then "PO-101" else if vid = "V002" then "PO-201" else "PO-101"

/-- The loop body of `reconcile_step` on one invoice: try
`run_match_invoice` (which is `match_invoice_to_po` on type-safe input),
capturing a per-item error when it raises.  `matchFn` is the attempt's
outcome (`run_match_invoice` raises when `_mock_invoices` times out). -/
def reconcileItem (matchFn : String → String → Except String ReconciliationResult)
    (inv : Invoice) : ReconItem :=
  match matchFn inv.invoice_id (poForVendor inv.vendor_id) with
  | .ok m => { invoice := inv, matchResult := some m }
  | .error e => { invoice := inv, matchResult := none, error := some e }

/-- `worker.py:reconcile_step` — fetch invoices with retry/fallback (empty
list as fallback), then match up to the first 3 to POs.  `fetch` is the
attempt-indexed outcome of `run_fetch_invoices(vendor_id, limit)`; `matchFn`
the outcome of `run_match_invoice` per (invoice, PO) pair.  Returns
`(reconciled, error, used_fallback)`. -/
def reconcile_step (fetch : Nat → Except String (List Invoice))
    (matchFn : String → String → Except String ReconciliationResult) :
    List ReconItem × Option String × Bool :=
  let fallback_invoices : List Invoice := []
  let (invoices, err, used_fallback) := run_with_retry_and_fallback fetch fallback_invoices
  if err.isSome then ([], err, used_fallback)
  else ((invoices.take 3).map (reconcileItem matchFn), none, used_fallback)

/-! ## `graph.py` — the three-node workflow

LangGraph semantics made explicit: each node returns a partial-update
record (a field is `some`/present exactly when the corresponding key is in
the returned dict), and an `apply…` function merges it into the state
(present keys overwrite, absent keys are kept — no field of this graph
accumulates except `messages`, which no node writes).  `interrupt(prompt)`
is modelled by running `check_approval_node` with an optional externally
supplied resume decision: `none` makes the node suspend with the prompt,
`some d` makes `interrupt` return `d`. -/

/-- Decimal formatting of the approval question's amount:
Python's `f"{amount_usd:,.2f}"` — two fixed decimals, thousands separated by
commas — on the exact decimal amounts this workflow handles. -/
def groupDigits (ds : List Char) : List Char :=
  if _h : ds.length ≤ 3 then ds
  else ds.take 3 ++ ',' :: groupDigits (ds.drop 3)
termination_by ds.length
decreasing_by simp; omega

def formatUSD (q : ℚ) : String :=
  let cents : Int := round (q * 100)
  let sign := if cents < 0 then "-" else ""
  let a := cents.natAbs
  let whole := a / 100
  let frac := a % 100
  let wholeStr := String.mk ((groupDigits (toString whole).toList.reverse).reverse)
  let fracStr := (if frac < 10 then "0" else "") ++ toString frac
  sign ++ wholeStr ++ "." ++ fracStr

/-- The f-string `f"Ready to pay this ${amount_usd:,.2f} invoice. Approve?"`. -/
def paymentQuestion (amount_usd : ℚ) : String :=
  "Ready to pay this $" ++ formatUSD amount_usd ++ " invoice. Approve?"

/-- The `pending_payment` dict `{ invoice_id, amount, vendor_id }` built by
`reconcile_node` (`amount` is `float(...)` of the invoice's `Decimal`
amount, value-preserving here). -/
structure PendingPayment where
  invoice_id : String
  amount : ℚ
  vendor_id : String
deriving Repr, DecidableEq

/-- The prompt dict passed to `interrupt` by `check_approval_node`. -/
structure HitlPrompt where
  question : String
  invoice_id : String
  amount_usd : ℚ
  approval_threshold_usd : ℚ
deriving Repr, DecidableEq

/-- `state.py:InvoiceReconciliationState` — every field optional
(`TypedDict(total=False)`); `none` is an absent key. -/
structure WorkflowState where
  vendor_id : Option String := none
  reconciled : Option (List ReconItem) := none
  pending_payment : Option PendingPayment := none
  approval : Option Bool := none
  hitl_prompt : Option HitlPrompt := none
  last_error : Option String := none
  retry_count : Option Nat := none
  used_fallback : Option Bool := none
  status : Option String := none
  result : Option PaymentResult := none
deriving Repr, DecidableEq

/-- The updates dict returned by `reconcile_node`: `reconciled`,
`used_fallback`, `retry_count`, `last_error` are always present; `status`
and `pending_payment` only on their branches (`some` = key present). -/
structure ReconcileUpdates where
  reconciled : List ReconItem
  used_fallback : Bool
  retry_count : Nat
  last_error : Option String
  status : Option String := none
  pending_payment : Option PendingPayment := none
deriving Repr, DecidableEq

/-- `graph.py:reconcile_node`.  `fetch`/`matchFn` are the attempt-indexed
outcomes of the tool calls made by `reconcile_step(vendor_id=state's
vendor_id, limit=5)` (the randomness of the mocked ERP made explicit);
`str(err)` is `err` itself since errors are carried as their message. -/
def reconcile_node (fetch : Nat → Except String (List Invoice))
    (matchFn : String → String → Except String ReconciliationResult)
    (state : WorkflowState) : ReconcileUpdates :=
  let retry_count := state.retry_count.getD 0
  let (reconciled, err, used_fallback) := reconcile_step fetch matchFn
  let updates : ReconcileUpdates :=
    { reconciled := reconciled, used_fallback := used_fallback,
      retry_count := retry_count + (if err.isSome then 1 else 0),
      last_error := err }
  if err.isSome && used_fallback && reconciled.isEmpty then
    { updates with status := some "failed" }
  else
    match reconciled with
    | first :: _ =>
        let pay : PendingPayment :=
          { invoice_id := first.invoice.invoice_id,
            amount := first.invoice.amount,
            vendor_id := first.invoice.vendor_id }
        { updates with pending_payment := some pay }
    | [] => updates

/-- Merge `reconcile_node`'s partial update into the state. -/
def applyReconcileUpdates (state : WorkflowState) (u : ReconcileUpdates) : WorkflowState :=
  { state with
    reconciled := some u.reconciled,
    used_fallback := some u.used_fallback,
    retry_count := some u.retry_count,
    last_error := u.last_error,
    status := match u.status with | some s => some s | none => state.status,
    pending_payment :=
      match u.pending_payment with | some p => some p | none => state.pending_payment }

/-- The updates dict returned by `check_approval_node` when it completes
(all three keys present on both completing branches). -/
structure ApprovalUpdates where
  approval : Bool
  status : String
  hitl_prompt : Option HitlPrompt
deriving Repr, DecidableEq

/-- Outcome of `check_approval_node`: either the node suspends at
`interrupt(prompt)` awaiting an external decision, or it returns updates. -/
inductive CheckApprovalResult where
  | suspended (prompt : HitlPrompt)
  | completed (updates : ApprovalUpdates)
deriving Repr, DecidableEq

/-- `worker.py:get_payment_summary` (= `get_payment_details`). -/
def get_payment_summary (invoice_id : String) (amount_usd : ℚ) : PaymentDetails :=
  get_payment_details invoice_id amount_usd

/-- `graph.py:check_approval_node`.  `resume` is the external decision
supplied on resume (`none` on first execution, so `interrupt` suspends;
`bool(decision)` of a supplied boolean is itself). -/
def check_approval_node (state : WorkflowState) (resume : Option Bool) :
    CheckApprovalResult :=
  let amount_usd : ℚ := match state.pending_payment with
    | some p => p.amount
    | none => 0
  let invoice_id : String := match state.pending_payment with
    | some p => p.invoice_id
    | none => ""
  let threshold := HITL_APPROVAL_THRESHOLD_USD
  let needs_approval := amount_usd ≥ threshold
  if ¬needs_approval then
    .completed { approval := true, status := "pending", hitl_prompt := none }
  else
    let _audit := get_payment_summary invoice_id amount_usd
    let prompt : HitlPrompt :=
      { question := paymentQuestion amount_usd, invoice_id := invoice_id,
        amount_usd := amount_usd, approval_threshold_usd := threshold }
    match resume with
    | none => .suspended prompt
    | some decision =>
        .completed { approval := decision, hitl_prompt := some prompt,
                     status := if ¬decision then "cancelled" else "pending" }

/-- Merge `check_approval_node`'s completed update into the state (all three
keys present, so all three fields overwrite). -/
def applyApprovalUpdates (state : WorkflowState) (u : ApprovalUpdates) : WorkflowState :=
  { state with
    approval := some u.approval,
    status := some u.status,
    hitl_prompt := u.hitl_prompt }

/-- The updates dict returned by `execute_payment_node`. -/
structure PaymentUpdates where
  result : PaymentResult
  status : String
deriving Repr, DecidableEq

/-- `graph.py:execute_payment_node` — executes payment if approved,
otherwise records the cancelled result.  `rand` is the payment reference's
random suffix. -/
def execute_payment_node (state : WorkflowState) (rand : Nat) : PaymentUpdates :=
  let approved := state.approval.getD false
  let invoice_id : String := match state.pending_payment with
    | some p => p.invoice_id
    | none => ""
  let amount_usd : ℚ := match state.pending_payment with
    | some p => p.amount
    | none => 0
  let vendor_id : String := match state.pending_payment with
    | some p => p.vendor_id
    | none => ""
  let result := execute_payment invoice_id amount_usd vendor_id approved rand
  { result := result, status := if approved then result.status else "cancelled" }

/-- Merge `execute_payment_node`'s update into the state. -/
def applyPaymentUpdates (state : WorkflowState) (u : PaymentUpdates) : WorkflowState :=
  { state with result := some u.result, status := some u.status }

/-- `graph.py:route_after_reconcile` — route to approval check or end. -/
def route_after_reconcile (state : WorkflowState) : String :=
  if state.status = some "failed" then "__end__"
  else if state.pending_payment.isSome then "check_approval"
  else "__end__"

/-- `graph.py:route_after_approval` — route to execute payment or end. -/
def route_after_approval (state : WorkflowState) : String :=
  if state.status = some "cancelled" then "__end__" else "execute_payment"

/-! ## Witness fixtures: concrete tool-outcome oracles -/

/-- A fetch whose every attempt raises the simulated ERP timeout. -/
def alwaysTimeout : Nat → Except String (List Invoice) :=
  fun _ => .error "ERP API timeout"

/-- A fetch that times out on attempt 0 and succeeds on attempt 1 with the
vendor-V001 mock invoices. -/
def fetchOkSecondTry : Nat → Except String (List Invoice) :=
  fun attempt =>
    if attempt = 0 then .error "ERP API timeout"
    else .ok (mock_invoices (some "V001") 5)

/-- A match oracle that never raises: the mock matcher's non-timeout path. -/
def mockMatch : String → String → Except String ReconciliationResult :=
  fun invoice_id po_id => .ok (match_invoice_to_po_mock invoice_id po_id)

/-! ## Lemmas about the retry loop -/

theorem retryLoop_success {α : Type} (fn : Nat → Except String α) (fb : α) (mr : Nat) :
    ∀ (fuel attempt : Nat) (last : Option String) (k : Nat) (r : α),
      attempt + fuel = mr → attempt ≤ k → k < mr → fn k = .ok r →
      (∀ j, attempt ≤ j → j < k → ∃ e, fn j = .error e) →
      retryLoop fn fb mr fuel attempt last = (r, none, false) := by
  intro fuel
  induction fuel with
  | zero =>
      intro attempt last k r hfuel hak hkmr _ _
      omega
  | succ f ih =>
      intro attempt last k r hfuel hak hkmr hok hfail
      by_cases hk : attempt = k
      · subst hk
        simp only [retryLoop]
        rw [hok]
      · have hlt : attempt < k := lt_of_le_of_ne hak hk
        obtain ⟨e, he⟩ := hfail attempt le_rfl hlt
        have hne : ¬ attempt = mr - 1 := by omega
        simp only [retryLoop]
        rw [he]
        simp only [hne, if_false]
        exact ih (attempt + 1) (some e) k r (by omega) (by omega) hkmr hok
          (fun j hj1 hj2 => hfail j (by omega) hj2)

theorem retryLoop_all_fail {α : Type} (fn : Nat → Except String α) (fb : α) (mr : Nat) :
    ∀ (fuel attempt : Nat) (last : Option String),
      attempt + fuel = mr → 0 < fuel →
      (∀ j, attempt ≤ j → j < mr → ∃ e, fn j = .error e) →
      ∃ e, fn (mr - 1) = .error e ∧
        retryLoop fn fb mr fuel attempt last = (fb, some e, true) := by
  intro fuel
  induction fuel with
  | zero =>
      intro attempt last _ hpos _
      omega
  | succ f ih =>
      intro attempt last hfuel _ hfail
      obtain ⟨e, he⟩ := hfail attempt le_rfl (by omega)
      by_cases hlast : attempt = mr - 1
      · refine ⟨e, by rw [← hlast]; exact he, ?_⟩
        simp only [retryLoop]
        rw [he]
        simp [hlast]
      · have hf : 0 < f := by omega
        obtain ⟨e', he', hrec⟩ := ih (attempt + 1) (some e) (by omega) hf
          (fun j hj1 hj2 => hfail j (by omega) hj2)
        refine ⟨e', he', ?_⟩
        simp only [retryLoop]
        rw [he]
        simp only [hlast, if_false]
        exact hrec

theorem run_with_retry_success {α : Type} (fn : Nat → Except String α) (fb : α)
    (m : Int) (k : Nat) (r : α) (hk : (k : Int) < m) (hok : fn k = .ok r)
    (hfail : ∀ j, j < k → ∃ e, fn j = .error e) :
    run_with_retry_and_fallback fn fb m = (r, none, false) := by
  apply retryLoop_success fn fb m.toNat m.toNat 0 none k r (by omega) (Nat.zero_le k)
    (by omega) hok
  intro j _ hj
  exact hfail j hj

theorem run_with_retry_all_fail {α : Type} (fn : Nat → Except String α) (fb : α)
    (m : Int) (hm : 1 ≤ m)
    (hfail : ∀ j : Nat, (j : Int) < m → ∃ e, fn j = .error e) :
    ∃ e, fn (m.toNat - 1) = .error e ∧
      run_with_retry_and_fallback fn fb m = (fb, some e, true) := by
  apply retryLoop_all_fail fn fb m.toNat m.toNat 0 none (by omega) (by omega)
  intro j _ hj
  exact hfail j (by omega)

/-- C4: for every operation, fallback and retry budget, a first success on
attempt `k` (1-based, within the budget) makes `run_with_retry_and_fallback`
return `(result, None, False)` without consulting any later attempt (the
result is the same for every operation agreeing on the first `k` attempts),
and when all `max_retries` attempts raise it returns
`(fallback, last attempt's error, True)`. -/
theorem run_with_retry_and_fallback_contract {α : Type} (fn : Nat → Except String α)
    (fallback : α) (max_retries : Int) :
    (∀ (k : Nat) (r : α), 1 ≤ k → (k : Int) ≤ max_retries → fn (k - 1) = .ok r →
       (∀ j, j < k - 1 → ∃ e, fn j = .error e) →
       run_with_retry_and_fallback fn fallback max_retries = (r, none, false) ∧
       (∀ g : Nat → Except String α, (∀ j, j < k → g j = fn j) →
         run_with_retry_and_fallback g fallback max_retries = (r, none, false))) ∧
    ((∀ j : Nat, (j : Int) < max_retries → ∃ e, fn j = .error e) → 1 ≤ max_retries →
       ∃ e, fn (max_retries.toNat - 1) = .error e ∧
         run_with_retry_and_fallback fn fallback max_retries = (fallback, some e, true)) := by
  constructor
  · intro k r hk1 hk2 hok hfail
    have hmain : run_with_retry_and_fallback fn fallback max_retries = (r, none, false) :=
      run_with_retry_success fn fallback max_retries (k - 1) r (by omega) hok hfail
    refine ⟨hmain, ?_⟩
    intro g hg
    apply run_with_retry_success g fallback max_retries (k - 1) r (by omega)
    · rw [hg (k - 1) (by omega)]
      exact hok
    · intro j hj
      obtain ⟨e, he⟩ := hfail j hj
      exact ⟨e, by rw [hg j (by omega)]; exact he⟩
  · intro hfail hm
    exact run_with_retry_all_fail fn fallback max_retries hm hfail

/-- Witness for C4: `fetchOkSecondTry` first succeeds on attempt 2 of 3, so
the wrapper returns its invoices with no error and no fallback; and
`alwaysTimeout` exhausts all 3 attempts, so the wrapper returns the empty
fallback, the timeout error and `used_fallback = true`. -/
theorem run_with_retry_and_fallback_contract_witness :
    (run_with_retry_and_fallback fetchOkSecondTry [] (3 : Int) =
      (mock_invoices (some "V001") 5, none, false)) ∧
    (run_with_retry_and_fallback alwaysTimeout [] (3 : Int) =
      ([], some "ERP API timeout", true)) := by
  constructor
  · exact ((run_with_retry_and_fallback_contract fetchOkSecondTry [] 3).1 2
      (mock_invoices (some "V001") 5) (by omega) (by omega) rfl
      (fun j hj => ⟨"ERP API timeout", by interval_cases j; rfl⟩)).1
  · obtain ⟨e, he, hrun⟩ := (run_with_retry_and_fallback_contract alwaysTimeout [] 3).2
      (fun j _ => ⟨"ERP API timeout", rfl⟩) (by omega)
    have he2 : (Except.error e : Except String (List Invoice)) =
        .error "ERP API timeout" :=
      he.symm.trans (show alwaysTimeout ((3 : Int).toNat - 1) =
        .error "ERP API timeout" from rfl)
    injection he2 with h
    subst h
    exact hrun

/-- C9: calling `run_with_retry_and_fallback` with a non-positive
`max_retries` never invokes the wrapped operation (the result is the same
for every operation) and returns `(fallback, None, True)`: `used_fallback`
is reported even though no attempt was made, and the error is `None`. -/
theorem run_with_retry_and_fallback_nonpositive {α : Type}
    (fn : Nat → Except String α) (fallback : α) (max_retries : Int)
    (h : max_retries ≤ 0) :
    run_with_retry_and_fallback fn fallback max_retries = (fallback, none, true) ∧
    (∀ g : Nat → Except String α,
      run_with_retry_and_fallback g fallback max_retries =
        run_with_retry_and_fallback fn fallback max_retries) := by
  have hz : max_retries.toNat = 0 := by omega
  constructor
  · rw [run_with_retry_and_fallback, hz]
    rfl
  · intro g
    rw [run_with_retry_and_fallback, run_with_retry_and_fallback, hz]
    rfl

/-- Witness for C9 at `max_retries = 0` and `max_retries = -2` with an
always-raising operation. -/
theorem run_with_retry_and_fallback_nonpositive_witness :
    run_with_retry_and_fallback alwaysTimeout [] (0 : Int) = ([], none, true) ∧
    run_with_retry_and_fallback alwaysTimeout [] (-2 : Int) = ([], none, true) := by
  exact ⟨(run_with_retry_and_fallback_nonpositive alwaysTimeout [] 0 (by omega)).1,
    (run_with_retry_and_fallback_nonpositive alwaysTimeout [] (-2) (by omega)).1⟩

/-! ## Lemmas about the reconciliation step and node -/

/-- Whether a modelled Python call returned normally. -/
def exceptIsOk {α : Type} : Except String α → Bool
  | .ok _ => true
  | .error _ => false

theorem reconcile_step_of_success (fetch : Nat → Except String (List Invoice))
    (matchFn : String → String → Except String ReconciliationResult)
    (k : Nat) (l : List Invoice) (hk : (k : Int) < MAX_TOOL_RETRIES)
    (hok : fetch k = .ok l) (hfail : ∀ j, j < k → ∃ e, fetch j = .error e) :
    reconcile_step fetch matchFn = ((l.take 3).map (reconcileItem matchFn), none, false) := by
  have hrun : run_with_retry_and_fallback fetch ([] : List Invoice) MAX_TOOL_RETRIES =
      (l, none, false) :=
    run_with_retry_success fetch [] MAX_TOOL_RETRIES k l hk hok hfail
  simp [reconcile_step, hrun]

theorem reconcile_step_of_all_fail (fetch : Nat → Except String (List Invoice))
    (matchFn : String → String → Except String ReconciliationResult)
    (hfail : ∀ j : Nat, (j : Int) < MAX_TOOL_RETRIES → ∃ e, fetch j = .error e) :
    ∃ e, fetch (MAX_TOOL_RETRIES.toNat - 1) = .error e ∧
      reconcile_step fetch matchFn = ([], some e, true) := by
  obtain ⟨e, he, hrun⟩ := run_with_retry_all_fail fetch ([] : List Invoice)
    MAX_TOOL_RETRIES (by norm_num [MAX_TOOL_RETRIES]) hfail
  exact ⟨e, he, by simp [reconcile_step, hrun]⟩

/-- Within the budget, either every attempt of the fetch raises, or there is
a first attempt that returns normally. -/
theorem fetch_dichotomy (fetch : Nat → Except String (List Invoice)) :
    (∀ j : Nat, (j : Int) < MAX_TOOL_RETRIES → ∃ e, fetch j = .error e) ∨
    (∃ (k : Nat) (l : List Invoice), (k : Int) < MAX_TOOL_RETRIES ∧ fetch k = .ok l ∧
      ∀ j, j < k → ∃ e, fetch j = .error e) := by
  by_cases h : ∀ j : Nat, (j : Int) < MAX_TOOL_RETRIES → ∃ e, fetch j = .error e
  · exact Or.inl h
  · right
    push_neg at h
    obtain ⟨j, hj, hne⟩ := h
    have hPj : exceptIsOk (fetch j) = true := by
      cases hfj : fetch j with
      | ok l => simp [exceptIsOk, hfj]
      | error e => exact absurd hfj (hne e)
    have hex : ∃ n, exceptIsOk (fetch n) = true := ⟨j, hPj⟩
    set k := Nat.find hex with hkdef
    have hkok : exceptIsOk (fetch k) = true := Nat.find_spec hex
    obtain ⟨l, hl⟩ : ∃ l, fetch k = .ok l := by
      cases hfk : fetch k with
      | ok l => exact ⟨l, rfl⟩
      | error e => rw [hfk] at hkok; simp [exceptIsOk] at hkok
    refine ⟨k, l, ?_, hl, ?_⟩
    · have : k ≤ j := Nat.find_le hPj
      omega
    · intro i hi
      have hni : ¬ exceptIsOk (fetch i) = true := Nat.find_min hex hi
      cases hfi : fetch i with
      | ok l' => rw [hfi] at hni; simp [exceptIsOk] at hni
      | error e => exact ⟨e, rfl⟩

/-- `reconcileItem` always carries the invoice it was given. -/
theorem reconcileItem_invoice
    (matchFn : String → String → Except String ReconciliationResult) (inv : Invoice) :
    (reconcileItem matchFn inv).invoice = inv := by
  unfold reconcileItem
  cases matchFn inv.invoice_id (poForVendor inv.vendor_id) <;> rfl

theorem reconcile_node_of_all_fail (fetch : Nat → Except String (List Invoice))
    (matchFn : String → String → Except String ReconciliationResult)
    (state : WorkflowState)
    (hfail : ∀ j : Nat, (j : Int) < MAX_TOOL_RETRIES → ∃ e, fetch j = .error e) :
    ∃ e, reconcile_node fetch matchFn state =
      { reconciled := [], used_fallback := true,
        retry_count := state.retry_count.getD 0 + 1,
        last_error := some e, status := some "failed", pending_payment := none } := by
  obtain ⟨e, _, hstep⟩ := reconcile_step_of_all_fail fetch matchFn hfail
  exact ⟨e, by simp [reconcile_node, hstep]⟩

theorem reconcile_node_of_success (fetch : Nat → Except String (List Invoice))
    (matchFn : String → String → Except String ReconciliationResult)
    (state : WorkflowState) (k : Nat) (l : List Invoice)
    (hk : (k : Int) < MAX_TOOL_RETRIES) (hok : fetch k = .ok l)
    (hfail : ∀ j, j < k → ∃ e, fetch j = .error e) :
    (reconcile_node fetch matchFn state).status = none ∧
    (reconcile_node fetch matchFn state).reconciled =
      (l.take 3).map (reconcileItem matchFn) ∧
    (reconcile_node fetch matchFn state).used_fallback = false ∧
    (reconcile_node fetch matchFn state).pending_payment =
      (match l with
       | [] => none
       | inv :: _ => some { invoice_id := inv.invoice_id, amount := inv.amount,
                            vendor_id := inv.vendor_id }) := by
  have hstep := reconcile_step_of_success fetch matchFn k l hk hok hfail
  cases l with
  | nil => simp [reconcile_node, hstep]
  | cons inv rest =>
      have hinv := reconcileItem_invoice matchFn inv
      simp [reconcile_node, hstep, hinv]

/-- C1: after the reconcile node runs, `status = "failed"` exactly when the
invoice fetch raised on every attempt of the retry budget and the reconciled
list is empty; and in that case `reconciled = []`, `used_fallback = true`,
no `pending_payment` is produced, and `route_after_reconcile` sends the run
straight to `__end__`, so no payment is attempted. -/
theorem reconcile_failed_iff_fetch_always_raised
    (fetch : Nat → Except String (List Invoice))
    (matchFn : String → String → Except String ReconciliationResult)
    (state : WorkflowState) :
    ((reconcile_node fetch matchFn state).status = some "failed" ↔
      ((∀ j : Nat, (j : Int) < MAX_TOOL_RETRIES → ∃ e, fetch j = .error e) ∧
       (reconcile_node fetch matchFn state).reconciled = [])) ∧
    ((reconcile_node fetch matchFn state).status = some "failed" →
      (reconcile_node fetch matchFn state).reconciled = [] ∧
      (reconcile_node fetch matchFn state).used_fallback = true ∧
      (reconcile_node fetch matchFn state).pending_payment = none ∧
      route_after_reconcile
        (applyReconcileUpdates state (reconcile_node fetch matchFn state)) = "__end__") := by
  rcases fetch_dichotomy fetch with hfail | ⟨k, l, hk, hok, hpre⟩
  · obtain ⟨e, hnode⟩ := reconcile_node_of_all_fail fetch matchFn state hfail
    constructor
    · rw [hnode]
      exact ⟨fun _ => ⟨hfail, rfl⟩, fun _ => rfl⟩
    · intro _
      rw [hnode]
      refine ⟨rfl, rfl, rfl, ?_⟩
      simp [applyReconcileUpdates, route_after_reconcile]
  · obtain ⟨hst, _, _, _⟩ := reconcile_node_of_success fetch matchFn state k l hk hok hpre
    constructor
    · rw [hst]
      constructor
      · intro h
        exact absurd h (by simp)
      · rintro ⟨hall, -⟩
        obtain ⟨e, he⟩ := hall k hk
        rw [hok] at he
        exact absurd he (by simp)
    · intro h
      rw [hst] at h
      exact absurd h (by simp)

/-- Witness for C1's implication half: with the always-raising fetch, the
node reports `status = "failed"`, an empty reconciled list, the fallback
flag, no pending payment, and the router ends the run. -/
theorem reconcile_failed_iff_fetch_always_raised_witness :
    (reconcile_node alwaysTimeout mockMatch {}).status = some "failed" ∧
    (reconcile_node alwaysTimeout mockMatch {}).reconciled = [] ∧
    (reconcile_node alwaysTimeout mockMatch {}).used_fallback = true ∧
    (reconcile_node alwaysTimeout mockMatch {}).pending_payment = none ∧
    route_after_reconcile
      (applyReconcileUpdates {} (reconcile_node alwaysTimeout mockMatch {})) = "__end__" := by
  have hfail : ∀ j : Nat, (j : Int) < MAX_TOOL_RETRIES →
      ∃ e, alwaysTimeout j = .error e := fun j _ => ⟨"ERP API timeout", rfl⟩
  have h := reconcile_failed_iff_fetch_always_raised alwaysTimeout mockMatch {}
  have hst : (reconcile_node alwaysTimeout mockMatch {}).status = some "failed" := by
    apply h.1.mpr
    refine ⟨hfail, ?_⟩
    rfl
  obtain ⟨h1, h2, h3, h4⟩ := h.2 hst
  exact ⟨hst, h1, h2, h3, h4⟩

/-- C2: when the fetch first succeeds on an attempt within the retry budget
and returns a non-empty invoice list, the reconcile node derives
`pending_payment` from the first fetched invoice — which is exactly the
first reconciled item's invoice — copying its id, amount and vendor; the
node writes no `status` key, so the run's status is unchanged and in
particular never becomes `"failed"` this way. -/
theorem reconcile_success_pending_payment
    (fetch : Nat → Except String (List Invoice))
    (matchFn : String → String → Except String ReconciliationResult)
    (state : WorkflowState) (k : Nat) (inv : Invoice) (rest : List Invoice)
    (hk : (k : Int) < MAX_TOOL_RETRIES) (hok : fetch k = .ok (inv :: rest))
    (hfail : ∀ j, j < k → ∃ e, fetch j = .error e) :
    (reconcile_node fetch matchFn state).pending_payment =
      some { invoice_id := inv.invoice_id, amount := inv.amount,
             vendor_id := inv.vendor_id } ∧
    (reconcile_node fetch matchFn state).reconciled.head? =
      some (reconcileItem matchFn inv) ∧
    (reconcileItem matchFn inv).invoice = inv ∧
    (reconcile_node fetch matchFn state).status = none ∧
    (applyReconcileUpdates state (reconcile_node fetch matchFn state)).status =
      state.status := by
  obtain ⟨hst, hrec, _, hpend⟩ :=
    reconcile_node_of_success fetch matchFn state k (inv :: rest) hk hok hfail
  refine ⟨by rw [hpend], ?_, reconcileItem_invoice matchFn inv, hst, ?_⟩
  · rw [hrec]
    simp
  · simp [applyReconcileUpdates, hst]

/-- Witness for C2: a fetch that succeeds on its second attempt with the
V001 invoices makes the node stage the INV-001 payment of 10000 and leave
the status unset. -/
theorem reconcile_success_pending_payment_witness :
    (reconcile_node fetchOkSecondTry mockMatch {}).pending_payment =
      some { invoice_id := "INV-001", amount := 10000, vendor_id := "V001" } ∧
    (reconcile_node fetchOkSecondTry mockMatch {}).status = none := by
  have h := reconcile_success_pending_payment fetchOkSecondTry mockMatch {} 1
    { invoice_id := "INV-001", vendor_id := "V001", vendor_name := "Acme Corp",
      amount := 10000, currency := "USD", status := "pending" }
    [{ invoice_id := "INV-002", vendor_id := "V001", vendor_name := "Acme Corp",
       amount := 500, currency := "USD", status := "pending" }]
    (by norm_num [MAX_TOOL_RETRIES]) rfl
    (fun j hj => ⟨"ERP API timeout", by interval_cases j; rfl⟩)
  exact ⟨h.1, h.2.2.2.1⟩

/-- C7: on the successful-fetch path, `reconcile_step` reconciles exactly
the first (at most 3) fetched invoices in fetch order, matching each against
the PO chosen by the fixed vendor lookup; a raising match is recorded inline
in that item's `error` field (others unaffected), and the step's top-level
error is `None` with `used_fallback = false`. -/
theorem reconcile_step_success_contract
    (fetch : Nat → Except String (List Invoice))
    (matchFn : String → String → Except String ReconciliationResult)
    (k : Nat) (l : List Invoice)
    (hk : (k : Int) < MAX_TOOL_RETRIES) (hok : fetch k = .ok l)
    (hfail : ∀ j, j < k → ∃ e, fetch j = .error e) :
    reconcile_step fetch matchFn = ((l.take 3).map (reconcileItem matchFn), none, false) ∧
    (reconcile_step fetch matchFn).1.length ≤ 3 ∧
    (∀ (inv : Invoice) (m : ReconciliationResult),
       matchFn inv.invoice_id (poForVendor inv.vendor_id) = .ok m →
       reconcileItem matchFn inv = { invoice := inv, matchResult := some m, error := none }) ∧
    (∀ (inv : Invoice) (e : String),
       matchFn inv.invoice_id (poForVendor inv.vendor_id) = .error e →
       reconcileItem matchFn inv = { invoice := inv, matchResult := none, error := some e }) ∧
    (poForVendor "V001" = "PO-101" ∧ poForVendor "V002" = "PO-201" ∧
     ∀ vid, vid ≠ "V001" → vid ≠ "V002" → poForVendor vid = "PO-101") := by
  have hstep := reconcile_step_of_success fetch matchFn k l hk hok hfail
  refine ⟨hstep, ?_, ?_, ?_, rfl, rfl, ?_⟩
  · rw [hstep]
    simp
  · intro inv m hm
    simp [reconcileItem, hm]
  · intro inv e he
    simp [reconcileItem, he]
  · intro vid h1 h2
    simp [poForVendor, h1, h2]

/-- Witness for C7: the second-try fetch yields the two V001 invoices, both
matched against PO-101, with no top-level error and no fallback. -/
theorem reconcile_step_success_contract_witness :
    reconcile_step fetchOkSecondTry mockMatch =
      (((mock_invoices (some "V001") 5).take 3).map (reconcileItem mockMatch), none, false) ∧
    (reconcile_step fetchOkSecondTry mockMatch).1.length ≤ 3 := by
  have h := reconcile_step_success_contract fetchOkSecondTry mockMatch 1
    (mock_invoices (some "V001") 5) (by norm_num [MAX_TOOL_RETRIES]) rfl
    (fun j hj => ⟨"ERP API timeout", by interval_cases j; rfl⟩)
  exact ⟨h.1, h.2.1⟩

/-! ## The approval gate and payment execution -/

/-- C3: with a pending payment, an amount at or above the configured
threshold (equality included) makes `check_approval_node` build the prompt —
question text, invoice id, amount, threshold — and suspend awaiting the
external decision; an amount strictly below makes it auto-approve with
status `"pending"` and no prompt, never suspending (the result is
`completed` whatever decision the environment would have supplied). -/
theorem check_approval_threshold_contract (state : WorkflowState) (p : PendingPayment)
    (hp : state.pending_payment = some p) :
    (p.amount ≥ HITL_APPROVAL_THRESHOLD_USD →
       check_approval_node state none = .suspended
         { question := paymentQuestion p.amount, invoice_id := p.invoice_id,
           amount_usd := p.amount,
           approval_threshold_usd := HITL_APPROVAL_THRESHOLD_USD }) ∧
    (p.amount < HITL_APPROVAL_THRESHOLD_USD →
       ∀ resume : Option Bool, check_approval_node state resume =
         .completed { approval := true, status := "pending", hitl_prompt := none }) := by
  constructor
  · intro hge
    simp [check_approval_node, hp, hge]
  · intro hlt resume
    simp [check_approval_node, hp, not_le.mpr hlt]

/-- Witness for C3 at the boundary: an amount exactly equal to the 5000
threshold suspends with the full prompt; 4999.99 auto-approves without
suspending. -/
theorem check_approval_threshold_contract_witness :
    check_approval_node
        { pending_payment := some { invoice_id := "INV-X", amount := 5000,
                                    vendor_id := "V001" } } none =
      .suspended { question := paymentQuestion 5000, invoice_id := "INV-X",
                   amount_usd := 5000,
                   approval_threshold_usd := HITL_APPROVAL_THRESHOLD_USD } ∧
    check_approval_node
        { pending_payment := some { invoice_id := "INV-Y", amount := 499999/100,
                                    vendor_id := "V001" } } none =
      .completed { approval := true, status := "pending", hitl_prompt := none } := by
  constructor
  · exact (check_approval_threshold_contract
      { pending_payment := some { invoice_id := "INV-X", amount := 5000,
                                  vendor_id := "V001" } }
      { invoice_id := "INV-X", amount := 5000, vendor_id := "V001" } rfl).1
      (by norm_num [HITL_APPROVAL_THRESHOLD_USD])
  · exact (check_approval_threshold_contract
      { pending_payment := some { invoice_id := "INV-Y", amount := 499999/100,
                                  vendor_id := "V001" } }
      { invoice_id := "INV-Y", amount := 499999/100, vendor_id := "V001" } rfl).2
      (by norm_num [HITL_APPROVAL_THRESHOLD_USD]) none

/-- C8: resuming a suspended run with decision `d` completes the approval
node with `approval = d` and status `"cancelled"` iff `d` is false; a
rejection routes straight to `__end__` leaving the `result` field untouched
(no payment recorded), while an acceptance routes to `execute_payment`,
whose update records a result with status `"paid"` and final run status
`"paid"`. -/
theorem resume_decision_contract (state : WorkflowState) (p : PendingPayment) (d : Bool)
    (hp : state.pending_payment = some p)
    (hge : p.amount ≥ HITL_APPROVAL_THRESHOLD_USD) :
    ∃ u : ApprovalUpdates,
      check_approval_node state (some d) = .completed u ∧
      u.approval = d ∧
      u.status = (if d then "pending" else "cancelled") ∧
      (d = false →
        route_after_approval (applyApprovalUpdates state u) = "__end__" ∧
        (applyApprovalUpdates state u).result = state.result) ∧
      (d = true →
        route_after_approval (applyApprovalUpdates state u) = "execute_payment" ∧
        ∀ rand : Nat,
          (execute_payment_node (applyApprovalUpdates state u) rand).status = "paid" ∧
          (execute_payment_node (applyApprovalUpdates state u) rand).result.status =
            "paid") := by
  refine ⟨{ approval := d,
            status := if ¬d then "cancelled" else "pending",
            hitl_prompt := some { question := paymentQuestion p.amount,
                                  invoice_id := p.invoice_id, amount_usd := p.amount,
                                  approval_threshold_usd := HITL_APPROVAL_THRESHOLD_USD } },
    ?_, rfl, ?_, ?_, ?_⟩
  · simp [check_approval_node, hp, hge]
  · cases d <;> simp
  · rintro rfl
    exact ⟨by simp [route_after_approval, applyApprovalUpdates],
      by simp [applyApprovalUpdates]⟩
  · rintro rfl
    constructor
    · simp [route_after_approval, applyApprovalUpdates]
    · intro rand
      constructor <;>
        simp [execute_payment_node, applyApprovalUpdates, execute_payment, hp]

/-- Witness for C8 on the 10000 invoice: rejection ends the run with
`status = "cancelled"` and no result; acceptance reaches `execute_payment`
and pays. -/
theorem resume_decision_contract_witness :
    (∃ u : ApprovalUpdates,
      check_approval_node
          ({ pending_payment := some { invoice_id := "INV-001", amount := 10000,
                                       vendor_id := "V001" } } : WorkflowState)
          (some false) = .completed u ∧
      u.status = "cancelled" ∧
      route_after_approval
        (applyApprovalUpdates
          { pending_payment := some { invoice_id := "INV-001", amount := 10000,
                                      vendor_id := "V001" } } u) = "__end__" ∧
      (applyApprovalUpdates
        { pending_payment := some { invoice_id := "INV-001", amount := 10000,
                                    vendor_id := "V001" } } u).result = none) ∧
    (∃ u : ApprovalUpdates,
      check_approval_node
          ({ pending_payment := some { invoice_id := "INV-001", amount := 10000,
                                       vendor_id := "V001" } } : WorkflowState)
          (some true) = .completed u ∧
      u.status = "pending" ∧
      route_after_approval
        (applyApprovalUpdates
          { pending_payment := some { invoice_id := "INV-001", amount := 10000,
                                      vendor_id := "V001" } } u) = "execute_payment" ∧
      (execute_payment_node
        (applyApprovalUpdates
          { pending_payment := some { invoice_id := "INV-001", amount := 10000,
                                      vendor_id := "V001" } } u) 1234).status = "paid") := by
  constructor
  · obtain ⟨u, hu, _, hs, hf, _⟩ := resume_decision_contract
      ({ pending_payment := some { invoice_id := "INV-001", amount := 10000,
                                   vendor_id := "V001" } } : WorkflowState)
      { invoice_id := "INV-001", amount := 10000, vendor_id := "V001" } false rfl
      (by norm_num [HITL_APPROVAL_THRESHOLD_USD])
    obtain ⟨hroute, hres⟩ := hf rfl
    exact ⟨u, hu, by simpa using hs, hroute, hres⟩
  · obtain ⟨u, hu, _, hs, _, ht⟩ := resume_decision_contract
      ({ pending_payment := some { invoice_id := "INV-001", amount := 10000,
                                   vendor_id := "V001" } } : WorkflowState)
      { invoice_id := "INV-001", amount := 10000, vendor_id := "V001" } true rfl
      (by norm_num [HITL_APPROVAL_THRESHOLD_USD])
    obtain ⟨hroute, hpay⟩ := ht rfl
    exact ⟨u, hu, by simpa using hs, hroute, (hpay 1234).1⟩

/-! ## Redaction lemmas -/

mutual

theorem redact_pii_idem : ∀ x : PyVal, redact_pii (redact_pii x) = redact_pii x
  | .atom s => by simp [redact_pii]
  | .dict fs => by simp [redact_pii, redactFields_idem fs]
  | .list its => by simp [redact_pii, redactItems_idem its]
  | .tuple its => by simp [redact_pii]

theorem redactFields_idem : ∀ fs : PyFields, redactFields (redactFields fs) = redactFields fs
  | .nil => by simp [redactFields]
  | .cons k v rest => by
      by_cases hk : k ∈ PII_KEYS
      · simp [redactFields, hk, redactFields_idem rest]
      · simp [redactFields, hk, redact_pii_idem v, redactFields_idem rest]

theorem redactItems_idem : ∀ its : PyItems, redactItems (redactItems its) = redactItems its
  | .nil => by simp [redactItems]
  | .cons v rest => by simp [redactItems, redact_pii_idem v, redactItems_idem rest]

end

mutual

theorem piiClean_redact_val : ∀ x : PyVal, tupleFree x = true → piiClean (redact_pii x) = true
  | .atom _, _ => by simp [redact_pii, piiClean]
  | .dict fs, h => by
      rw [tupleFree] at h
      simp [redact_pii, piiClean, piiClean_redact_fields fs h]
  | .list its, h => by
      rw [tupleFree] at h
      simp [redact_pii, piiClean, piiClean_redact_items its h]
  | .tuple _, h => by rw [tupleFree] at h; exact absurd h (by simp)

theorem piiClean_redact_fields :
    ∀ fs : PyFields, tupleFreeFields fs = true → piiCleanFields (redactFields fs) = true
  | .nil, _ => by simp [redactFields, piiCleanFields]
  | .cons k v rest, h => by
      rw [tupleFreeFields, Bool.and_eq_true] at h
      by_cases hk : k ∈ PII_KEYS
      · simp [redactFields, piiCleanFields, hk, REDACT_PLACEHOLDER,
          piiClean_redact_fields rest h.2]
      · simp [redactFields, piiCleanFields, hk, piiClean_redact_val v h.1,
          piiClean_redact_fields rest h.2]

theorem piiClean_redact_items :
    ∀ its : PyItems, tupleFreeItems its = true → piiCleanItems (redactItems its) = true
  | .nil, _ => by simp [redactItems, piiCleanItems]
  | .cons v rest, h => by
      rw [tupleFreeItems, Bool.and_eq_true] at h
      simp [redactItems, piiCleanItems, piiClean_redact_val v h.1,
        piiClean_redact_items rest h.2]

end

theorem redactFields_keys : ∀ fs : PyFields, (redactFields fs).keys = fs.keys
  | .nil => rfl
  | .cons k v rest => by simp [redactFields, PyFields.keys, redactFields_keys rest]

theorem redactItems_length : ∀ its : PyItems, (redactItems its).length = its.length
  | .nil => rfl
  | .cons v rest => by simp [redactItems, PyItems.length, redactItems_length rest]

/-- C5: `redact_pii` replaces the whole value of every PII-keyed dict entry
with the `"[REDACTED]"` placeholder, recurses into every other dict value
and every list element, and on any JSON-like input (dicts/lists/atoms at any
nesting depth) its output holds nothing but the placeholder at every
PII-keyed position, at every depth. -/
theorem redact_pii_contract :
    (∀ (k : String) (v : PyVal) (rest : PyFields), k ∈ PII_KEYS →
       redactFields (.cons k v rest) =
         .cons k (.atom REDACT_PLACEHOLDER) (redactFields rest)) ∧
    (∀ (k : String) (v : PyVal) (rest : PyFields), k ∉ PII_KEYS →
       redactFields (.cons k v rest) = .cons k (redact_pii v) (redactFields rest)) ∧
    (∀ (v : PyVal) (rest : PyItems),
       redactItems (.cons v rest) = .cons (redact_pii v) (redactItems rest)) ∧
    (∀ fs : PyFields, redact_pii (.dict fs) = .dict (redactFields fs)) ∧
    (∀ its : PyItems, redact_pii (.list its) = .list (redactItems its)) ∧
    (∀ x : PyVal, tupleFree x = true → piiClean (redact_pii x) = true) := by
  refine ⟨?_, ?_, fun v rest => rfl, fun fs => rfl, fun its => rfl, piiClean_redact_val⟩
  · intro k v rest hk
    simp [redactFields, hk]
  · intro k v rest hk
    simp [redactFields, hk]

/-- Witness for C5: a payload nesting PII keys inside a list inside a dict
is clean after redaction. -/
theorem redact_pii_contract_witness :
    tupleFree
      (.dict (.cons "vendor_email" (.atom "ap@acme.example")
        (.cons "items" (.list (.cons (.dict (.cons "bank_account" (.atom "DE89-3704")
          (.cons "note" (.atom "ok") .nil))) .nil)) .nil))) = true ∧
    piiClean (redact_pii
      (.dict (.cons "vendor_email" (.atom "ap@acme.example")
        (.cons "items" (.list (.cons (.dict (.cons "bank_account" (.atom "DE89-3704")
          (.cons "note" (.atom "ok") .nil))) .nil)) .nil)))) = true := by
  refine ⟨rfl, ?_⟩
  exact redact_pii_contract.2.2.2.2.2 _ rfl

/-- C10: `redact_pii` is idempotent and structure-preserving: dict key
sequences and list lengths are unchanged, an atom is returned unchanged, and
a container other than a dict or list (a tuple) is not traversed — it comes
back identical, its contents unredacted. -/
theorem redact_pii_idempotent_structure :
    (∀ x : PyVal, redact_pii (redact_pii x) = redact_pii x) ∧
    (∀ fs : PyFields, (redactFields fs).keys = fs.keys) ∧
    (∀ its : PyItems, (redactItems its).length = its.length) ∧
    (∀ s : String, redact_pii (.atom s) = .atom s) ∧
    (∀ its : PyItems, redact_pii (.tuple its) = .tuple its) :=
  ⟨redact_pii_idem, redactFields_keys, redactItems_length,
    fun _ => rfl, fun _ => rfl⟩

/-! ## Match scoring -/

/-- C6: `match_invoice_to_po` returns score 0, `amount_match = false` and
`"Invoice or PO not found"` when either lookup misses; when both hit,
`amount_match` holds exactly when the invoice amount and PO total differ by
less than 0.01, the score is 1 exactly when the vendor ids agree AND the
amounts match, and 0.5 in every other found-found case. -/
theorem match_invoice_to_po_contract (invoices : List Invoice)
    (pos : List PurchaseOrder) (invoice_id po_id : String) :
    ((invoices.find? (fun i => i.invoice_id = invoice_id) = none ∨
      pos.find? (fun p => p.po_id = po_id) = none) →
      match_invoice_to_po invoices pos invoice_id po_id =
        { invoice_id := invoice_id, po_id := po_id, match_score := 0,
          amount_match := false, message := "Invoice or PO not found" }) ∧
    (∀ (inv : Invoice) (po : PurchaseOrder),
      invoices.find? (fun i => i.invoice_id = invoice_id) = some inv →
      pos.find? (fun p => p.po_id = po_id) = some po →
      ((match_invoice_to_po invoices pos invoice_id po_id).amount_match = true ↔
        |inv.amount - po.total_amount| < 1/100) ∧
      ((match_invoice_to_po invoices pos invoice_id po_id).match_score = 1 ↔
        (inv.vendor_id = po.vendor_id ∧
         (match_invoice_to_po invoices pos invoice_id po_id).amount_match = true)) ∧
      (¬(inv.vendor_id = po.vendor_id ∧ |inv.amount - po.total_amount| < 1/100) →
        (match_invoice_to_po invoices pos invoice_id po_id).match_score = 1/2)) := by
  constructor
  · rintro (h | h)
    · cases hpo : pos.find? (fun p => p.po_id = po_id) <;>
        simp [match_invoice_to_po, h, hpo]
    · cases hinv : invoices.find? (fun i => i.invoice_id = invoice_id) <;>
        simp [match_invoice_to_po, h, hinv]
  · intro inv po hinv hpo
    have ham : (match_invoice_to_po invoices pos invoice_id po_id).amount_match =
        decide (|inv.amount - po.total_amount| < 1/100) := by
      simp [match_invoice_to_po, hinv, hpo]
    have hsc : (match_invoice_to_po invoices pos invoice_id po_id).match_score =
        (if inv.vendor_id = po.vendor_id ∧ |inv.amount - po.total_amount| < 1/100
         then (1 : ℚ) else 1/2) := by
      simp [match_invoice_to_po, hinv, hpo]
    refine ⟨by rw [ham]; simp, ?_, ?_⟩
    · rw [hsc, ham]
      by_cases hcond : inv.vendor_id = po.vendor_id ∧ |inv.amount - po.total_amount| < 1/100
      · simp only [if_pos hcond, decide_eq_true_eq]
        exact iff_of_true trivial ⟨hcond.1, hcond.2⟩
      · rw [if_neg hcond]
        constructor
        · intro h
          exact absurd h (by norm_num)
        · rintro ⟨hv, hb⟩
          exact absurd ⟨hv, of_decide_eq_true hb⟩ hcond
    · intro hn
      rw [hsc, if_neg hn]

/-- Witness for C6 on the mock data: an unknown invoice id is not found;
INV-001 vs PO-101 agree on vendor and amount (score 1); INV-001 vs PO-201
disagree (score 0.5). -/
theorem match_invoice_to_po_contract_witness :
    match_invoice_to_po_mock "INV-404" "PO-101" =
      { invoice_id := "INV-404", po_id := "PO-101", match_score := 0,
        amount_match := false, message := "Invoice or PO not found" } ∧
    (match_invoice_to_po_mock "INV-001" "PO-101").match_score = 1 ∧
    (match_invoice_to_po_mock "INV-001" "PO-201").match_score = 1/2 := by
  refine ⟨?_, ?_, ?_⟩
  · exact (match_invoice_to_po_contract (mock_invoices none 100) mock_pos
      "INV-404" "PO-101").1 (Or.inl (by rfl))
  · have h2 := (match_invoice_to_po_contract (mock_invoices none 100) mock_pos
      "INV-001" "PO-101").2
      { invoice_id := "INV-001", vendor_id := "V001", vendor_name := "Acme Corp",
        amount := 10000, currency := "USD", status := "pending" }
      { po_id := "PO-101", vendor_id := "V001", total_amount := 10000,
        status := "open" } rfl rfl
    exact h2.2.1.mpr ⟨rfl, h2.1.mpr (by norm_num)⟩
  · apply ((match_invoice_to_po_contract (mock_invoices none 100) mock_pos
      "INV-001" "PO-201").2
      { invoice_id := "INV-001", vendor_id := "V001", vendor_name := "Acme Corp",
        amount := 10000, currency := "USD", status := "pending" }
      { po_id := "PO-201", vendor_id := "V002", total_amount := 2500,
        status := "open" } rfl rfl).2.2
    rintro ⟨hv, -⟩
    exact absurd hv (by decide)

end InvoiceAgent
